import Mathlib

/-!
Shallow embedding of the TestRail client wrapper of `vscode-testrail-tools`:
the transport primitive `request` (URL resolution, response settlement,
error construction), the cursor-following call `requestNext`, the per-entity
methods of `TestRailHelper` (endpoint and query-string construction, request
bodies, result post-processing), and the configuration loader
(`loadTestRailConfig` / `validateTestRailConfig`).

JavaScript semantics relevant to the source are made explicit: truthiness,
property access returning `undefined`, object spread, and the `||` operator
on strings.
-/

namespace TestRailTools

/-- JSON values as delivered to and from the transport. Numbers are modelled
as integers (all numeric fields of the TestRail API are integers); object
fields keep their insertion order, as JavaScript objects do. -/
inductive Json where
  | null : Json
  | bool (b : Bool) : Json
  | num (n : Int) : Json
  | str (s : String) : Json
  | arr (xs : List Json) : Json
  | obj (fields : List (String × Json)) : Json
deriving Repr

/-- JavaScript truthiness of a JSON value: `null`, `false`, `0` and the
empty string are falsy; every array and object is truthy. -/
def truthy : Json → Bool
  | .null => false
  | .bool b => b
  | .num n => n != 0
  | .str s => s != ""
  | .arr _ => true
  | .obj _ => true

/-- Field lookup in an ordered field list, first occurrence wins. -/
def lookupField : List (String × Json) → String → Option Json
  | [], _ => none
  | (k, v) :: rest, key => if k = key then some v else lookupField rest key

/-- JavaScript property access `value.key`: `none` models `undefined`
(the value is not an object, or the object has no such key). -/
def jsField : Json → String → Option Json
  | .obj fields, key => lookupField fields key
  | _, _ => none

/-- JavaScript object spread with one trailing assignment,
`\x7b ...fields, key: v \x7d`: if `key` already occurs its value is
overwritten in place, otherwise the pair is appended. -/
def spreadWith : List (String × Json) → String → Json → List (String × Json)
  | [], key, v => [(key, v)]
  | (k, w) :: rest, key, v =>
    if k = key then (key, v) :: rest else (k, w) :: spreadWith rest key v

/-- Configuration record `TestRailConfig` of `configLoader`. -/
structure TestRailConfig where
  baseUrl : String
  email : String
  apiKey : String
deriving DecidableEq, Repr

/-- An HTTP request as handed to the transport primitive `request`:
its `endpoint` argument, HTTP `method`, and optional JSON `body`. -/
structure HttpRequest where
  method : String
  endpoint : String
  body : Option Json
deriving Repr

/-- Model of `URLSearchParams.toString()` for the parameter lists this
client builds: entries are joined as `key=value` with `&`. All appended
values here are decimal integer strings, which form-urlencoding leaves
unchanged. -/
def searchParamsToString (params : List (String × String)) : String :=
  String.intercalate "&" (params.map fun p => p.1 ++ "=" ++ p.2)

/-- One conditional `URLSearchParams.append` guarded by
`if (x !== undefined)`: the parameter is appended whenever the caller
passed a value, including zero. -/
def paramIfDefined (key : String) : Option Int → List (String × String)
  | some v => [(key, toString v)]
  | none => []

/-- One conditional `URLSearchParams.append` guarded by a bare truthiness
test `if (x)`: `undefined` and `0` are both skipped. -/
def paramIfTruthy (key : String) : Option Int → List (String × String)
  | some v => if v = 0 then [] else [(key, toString v)]
  | none => []

/-- Query-string suffix `queryString ? '&' + queryString : ''` appended to
every listing endpoint. -/
def querySuffix (queryString : String) : String :=
  if queryString = "" then "" else "&" ++ queryString

/-- Pathname of `new URL(endpoint, baseUrl)` for an absolute-path endpoint:
the WHATWG basic URL parser ends the path at the first `?`. The model is
exact for endpoints whose characters need no percent-encoding and whose
path needs no dot-segment normalization, which holds for every endpoint
this client builds. -/
def urlPathname (endpoint : String) : String :=
  String.mk (endpoint.toList.takeWhile (fun c => c != '?'))

/-- Search part of `new URL(endpoint, baseUrl)`: everything from the first
`?` on, kept verbatim (same exactness domain as `urlPathname`). -/
def urlSearch (endpoint : String) : String :=
  String.mk (endpoint.toList.dropWhile (fun c => c != '?'))

/-- The request path the transport puts on the wire:
`path: url.pathname + url.search`. -/
def sentPath (endpoint : String) : String :=
  urlPathname endpoint ++ urlSearch endpoint

/-- Characters the WHATWG URL serializer keeps verbatim in the path and
query of a URL: on strings made of these, `url.pathname + url.search`
reproduces the input endpoint byte for byte. Continuation links emitted by
the service (`/api/v2/get_sections/16&suite_id=142&limit=250&offset=250`)
use only such characters. -/
def urlVerbatimChar (c : Char) : Bool :=
  c.isAlphanum ||
    [('/' : Char), '&', '=', '_', '-', '.', '~', '?', ':', '@', '!', '$',
      '+', ',', ';', '(', ')', '*'].contains c

/-- Settlement of the promise returned by `request`: either `resolve(v)`
or `reject(e)` where the JavaScript error `e` is its class name
(`Error` for every error the transport constructs itself) plus message. -/
inductive Settled where
  | resolved (v : Json)
  | rejected (name message : String)
deriving Repr

/-- Error-class name of a rejected settlement, `none` when resolved. -/
def settledName : Settled → Option String
  | .resolved _ => none
  | .rejected n _ => some n

/-- Truthy-and-in-range test
`res.statusCode && res.statusCode >= 200 && res.statusCode < 300`;
`none` models an absent status code. -/
def statusOkCheck : Option Nat → Bool
  | some s => s != 0 && decide (200 ≤ s) && decide (s < 300)
  | none => false

/-- String interpolation of `res.statusCode` in the error template: an
absent status prints as `undefined`, as JavaScript renders it. -/
def statusToString : Option Nat → String
  | some s => toString s
  | none => "undefined"

/-- Fixed head of every transport error message. -/
def apiErrorHead : String := "TestRail API error: "

/-- Message of the error built on a non-2xx response. -/
def apiErrorMessage (statusCode : Option Nat) (data : String) : String :=
  apiErrorHead ++ statusToString statusCode ++ " - " ++ data

/-- End-of-response handler of `request`: a 2xx body is parsed as JSON,
an empty body resolves to an empty object, an unparsable body resolves to
the raw text (the `catch` around `JSON.parse`), and any other status
rejects with `new Error(...)`. `parseJson` stands for the host
`JSON.parse`, returning `none` when it would throw. -/
def onEnd (parseJson : String → Option Json) (statusCode : Option Nat)
    (data : String) : Settled :=
  if statusOkCheck statusCode then
    if data = "" then
      .resolved (Json.obj [])
    else
      match parseJson data with
      | some parsed => .resolved parsed
      | none => .resolved (Json.str data)
  else
    .rejected "Error" (apiErrorMessage statusCode data)

/-- Network-error handler `req.on('error', (error) => reject(error))`:
the underlying error is passed through unchanged, no status attached. -/
def onError (name message : String) : Settled :=
  .rejected name message

/-- Status recovery from a transport error message: after the fixed head,
the digits before the first space. Used to state what an error message
carries; not part of the client source. -/
def extractStatus (message : String) : Option Nat :=
  let cs := message.toList
  if cs.take apiErrorHead.length = apiErrorHead.toList then
    let digits := (cs.drop apiErrorHead.length).takeWhile (fun c => c != ' ')
    if digits.isEmpty then none
    else if digits.all Char.isDigit then
      some (digits.foldl (fun acc c => acc * 10 + (c.toNat - 48)) 0)
    else none
  else none

/-- Body recovery from a transport error message: everything after the
status digits and the separator. Not part of the client source. -/
def extractBody (message : String) : Option String :=
  let cs := message.toList
  if cs.take apiErrorHead.length = apiErrorHead.toList then
    let rest := (cs.drop apiErrorHead.length).dropWhile (fun c => c != ' ')
    if rest.take 3 = [' ', '-', ' '] then some (String.mk (rest.drop 3))
    else none
  else none

/-- Hexadecimal digit character, uppercase, as `encodeURIComponent` emits. -/
def hexDigit (n : Nat) : Char :=
  if n < 10 then Char.ofNat (48 + n) else Char.ofNat (55 + n)

/-- Percent-encoding of one byte. -/
def percentByte (b : Nat) : String :=
  "%" ++ String.mk [hexDigit (b / 16), hexDigit (b % 16)]

/-- UTF-8 bytes of a Unicode scalar value. -/
def utf8Bytes (c : Char) : List Nat :=
  let n := c.toNat
  if n < 128 then [n]
  else if n < 2048 then [192 + n / 64, 128 + n % 64]
  else if n < 65536 then [224 + n / 4096, 128 + (n / 64) % 64, 128 + n % 64]
  else [240 + n / 262144, 128 + (n / 4096) % 64, 128 + (n / 64) % 64,
    128 + n % 64]

/-- Characters `encodeURIComponent` leaves unescaped. -/
def uriUnreserved (c : Char) : Bool :=
  c.isAlphanum ||
    [('-' : Char), '_', '.', '!', '~', '*', '\'', '(', ')'].contains c

/-- The host `encodeURIComponent`: unreserved characters kept, every other
character replaced by the percent-encoding of its UTF-8 bytes. -/
def encodeURIComponent (s : String) : String :=
  String.join (s.toList.map fun c =>
    if uriUnreserved c then String.mk [c]
    else String.join ((utf8Bytes c).map percentByte))

/-- Continuation call `requestNext`: the ternary
`nextLink.startsWith('/') ? nextLink.substring(1) : nextLink` — a
first-character test followed by dropping that character, modelled on the
character list — and the remainder re-based under `/index.php?/`; the
result is handed to `request` with the default method `GET` and no body. -/
def requestNext (nextLink : String) : HttpRequest :=
  let endpoint :=
    if nextLink.toList.take 1 = ['/'] then String.mk (nextLink.toList.drop 1)
    else nextLink
  ⟨"GET", "/index.php?/" ++ endpoint, none⟩

/-- Method `getProject`. -/
def getProject (projectId : Int) : HttpRequest :=
  ⟨"GET", "/index.php?/api/v2/get_project/" ++ toString projectId, none⟩

/-- Query parameters of `getProjects`: all three appends are guarded by
`!== undefined`. -/
def getProjectsParams (isCompleted limit offset : Option Int) :
    List (String × String) :=
  paramIfDefined "is_completed" isCompleted ++ paramIfDefined "limit" limit
    ++ paramIfDefined "offset" offset

/-- Method `getProjects`. -/
def getProjects (isCompleted limit offset : Option Int) : HttpRequest :=
  let queryString :=
    searchParamsToString (getProjectsParams isCompleted limit offset)
  ⟨"GET", "/index.php?/api/v2/get_projects" ++ querySuffix queryString, none⟩

/-- Method `addProject`: the caller's payload object is the body. -/
def addProject (data : List (String × Json)) : HttpRequest :=
  ⟨"POST", "/index.php?/api/v2/add_project", some (Json.obj data)⟩

/-- Method `updateProject`. -/
def updateProject (projectId : Int) (data : List (String × Json)) :
    HttpRequest :=
  ⟨"POST", "/index.php?/api/v2/update_project/" ++ toString projectId,
    some (Json.obj data)⟩

/-- Method `deleteProject`: `POST` with no body. -/
def deleteProject (projectId : Int) : HttpRequest :=
  ⟨"POST", "/index.php?/api/v2/delete_project/" ++ toString projectId, none⟩

/-- Method `getSuite`. -/
def getSuite (suiteId : Int) : HttpRequest :=
  ⟨"GET", "/index.php?/api/v2/get_suite/" ++ toString suiteId, none⟩

/-- Query parameters of `getSuites`: both appends guarded by
`!== undefined`. -/
def getSuitesParams (limit offset : Option Int) : List (String × String) :=
  paramIfDefined "limit" limit ++ paramIfDefined "offset" offset

/-- Method `getSuites`. -/
def getSuites (projectId : Int) (limit offset : Option Int) : HttpRequest :=
  let queryString := searchParamsToString (getSuitesParams limit offset)
  ⟨"GET", "/index.php?/api/v2/get_suites/" ++ toString projectId
    ++ querySuffix queryString, none⟩

/-- Method `addSuite`. -/
def addSuite (projectId : Int) (data : List (String × Json)) : HttpRequest :=
  ⟨"POST", "/index.php?/api/v2/add_suite/" ++ toString projectId,
    some (Json.obj data)⟩

/-- Method `updateSuite`. -/
def updateSuite (suiteId : Int) (data : List (String × Json)) : HttpRequest :=
  ⟨"POST", "/index.php?/api/v2/update_suite/" ++ toString suiteId,
    some (Json.obj data)⟩

/-- Method `deleteSuite`. -/
def deleteSuite (suiteId : Int) : HttpRequest :=
  ⟨"POST", "/index.php?/api/v2/delete_suite/" ++ toString suiteId, none⟩

/-- Method `getSection`. -/
def getSection (sectionId : Int) : HttpRequest :=
  ⟨"GET", "/index.php?/api/v2/get_section/" ++ toString sectionId, none⟩

/-- Query parameters of `getSections`: all three appends guarded by
`!== undefined`. -/
def getSectionsParams (suiteId limit offset : Option Int) :
    List (String × String) :=
  paramIfDefined "suite_id" suiteId ++ paramIfDefined "limit" limit
    ++ paramIfDefined "offset" offset

/-- Method `getSections`. -/
def getSections (projectId : Int) (suiteId limit offset : Option Int) :
    HttpRequest :=
  let queryString :=
    searchParamsToString (getSectionsParams suiteId limit offset)
  ⟨"GET", "/index.php?/api/v2/get_sections/" ++ toString projectId
    ++ querySuffix queryString, none⟩

/-- Method `addSection`. -/
def addSection (projectId : Int) (data : List (String × Json)) :
    HttpRequest :=
  ⟨"POST", "/index.php?/api/v2/add_section/" ++ toString projectId,
    some (Json.obj data)⟩

/-- Method `updateSection`. -/
def updateSection (sectionId : Int) (data : List (String × Json)) :
    HttpRequest :=
  ⟨"POST", "/index.php?/api/v2/update_section/" ++ toString sectionId,
    some (Json.obj data)⟩

/-- Method `deleteSection`. -/
def deleteSection (sectionId : Int) : HttpRequest :=
  ⟨"POST", "/index.php?/api/v2/delete_section/" ++ toString sectionId, none⟩

/-- Method `getCase`. -/
def getCase (caseId : Int) : HttpRequest :=
  ⟨"GET", "/index.php?/api/v2/get_case/" ++ toString caseId, none⟩

/-- Optional filter object of `getCases`. -/
structure CaseOptions where
  suite_id : Option Int
  section_id : Option Int
  limit : Option Int
  offset : Option Int
deriving Repr

/-- Query parameters of `getCases`: all four appends are guarded by bare
truthiness tests `if (options?.x)`, so `undefined` and `0` are both
skipped. -/
def getCasesParams (options : Option CaseOptions) : List (String × String) :=
  paramIfTruthy "suite_id" (options.bind CaseOptions.suite_id)
    ++ paramIfTruthy "section_id" (options.bind CaseOptions.section_id)
    ++ paramIfTruthy "limit" (options.bind CaseOptions.limit)
    ++ paramIfTruthy "offset" (options.bind CaseOptions.offset)

/-- Method `getCases`. -/
def getCases (projectId : Int) (options : Option CaseOptions) : HttpRequest :=
  let queryString := searchParamsToString (getCasesParams options)
  ⟨"GET", "/index.php?/api/v2/get_cases/" ++ toString projectId
    ++ querySuffix queryString, none⟩

/-- Method `addCase`. -/
def addCase (sectionId : Int) (data : List (String × Json)) : HttpRequest :=
  ⟨"POST", "/index.php?/api/v2/add_case/" ++ toString sectionId,
    some (Json.obj data)⟩

/-- Method `updateCase`. -/
def updateCase (caseId : Int) (data : List (String × Json)) : HttpRequest :=
  ⟨"POST", "/index.php?/api/v2/update_case/" ++ toString caseId,
    some (Json.obj data)⟩

/-- Method `deleteCase`. -/
def deleteCase (caseId : Int) : HttpRequest :=
  ⟨"POST", "/index.php?/api/v2/delete_case/" ++ toString caseId, none⟩

/-- Method `getGroup`. -/
def getGroup (groupId : Int) : HttpRequest :=
  ⟨"GET", "/index.php?/api/v2/get_group/" ++ toString groupId, none⟩

/-- Query parameters of `getGroups`: both appends guarded by
`!== undefined`. -/
def getGroupsParams (limit offset : Option Int) : List (String × String) :=
  paramIfDefined "limit" limit ++ paramIfDefined "offset" offset

/-- Method `getGroups`. -/
def getGroups (limit offset : Option Int) : HttpRequest :=
  let queryString := searchParamsToString (getGroupsParams limit offset)
  ⟨"GET", "/index.php?/api/v2/get_groups" ++ querySuffix queryString, none⟩

/-- Method `addGroup`. -/
def addGroup (data : List (String × Json)) : HttpRequest :=
  ⟨"POST", "/index.php?/api/v2/add_group", some (Json.obj data)⟩

/-- Method `updateGroup`: the body is `\x7b ...data, group_id: groupId \x7d`
because the TestRail API requires `group_id` in both the URL and the body. -/
def updateGroup (groupId : Int) (data : List (String × Json)) : HttpRequest :=
  ⟨"POST", "/index.php?/api/v2/update_group/" ++ toString groupId,
    some (Json.obj (spreadWith data "group_id" (Json.num groupId)))⟩

/-- Method `deleteGroup`. -/
def deleteGroup (groupId : Int) : HttpRequest :=
  ⟨"POST", "/index.php?/api/v2/delete_group/" ++ toString groupId, none⟩

/-- Method `getUser`. -/
def getUser (userId : Int) : HttpRequest :=
  ⟨"GET", "/index.php?/api/v2/get_user/" ++ toString userId, none⟩

/-- Method `getUserByEmail`. -/
def getUserByEmail (email : String) : HttpRequest :=
  ⟨"GET", "/index.php?/api/v2/get_user_by_email&email="
    ++ encodeURIComponent email, none⟩

/-- Query suffix of `getUsers`: built by the template
`projectId ? '&project_id=' + projectId : ''`, a bare truthiness test, so
`undefined` and `0` both yield the empty suffix. -/
def getUsersQuery (projectId : Option Int) : String :=
  match projectId with
  | some v => if v = 0 then "" else "&project_id=" ++ toString v
  | none => ""

/-- Method `getUsers` (request construction). -/
def getUsers (projectId : Option Int) : HttpRequest :=
  ⟨"GET", "/index.php?/api/v2/get_users" ++ getUsersQuery projectId, none⟩

/-- Method `getPriorities` (request construction). -/
def getPriorities : HttpRequest :=
  ⟨"GET", "/index.php?/api/v2/get_priorities", none⟩

/-- Post-processing of the `getUsers` transport result: a bare array is
returned as is; otherwise, when the response is truthy and its `users`
property is truthy and an array, that array is returned; otherwise the
empty list. -/
def getUsersResult (response : Json) : List Json :=
  match response with
  | .arr xs => xs
  | _ =>
    if truthy response then
      match jsField response "users" with
      | some users =>
        if truthy users then
          match users with
          | .arr xs => xs
          | _ => []
        else []
      | none => []
    else []

/-- Post-processing of the `getPriorities` transport result: a bare array
is returned as is, anything else becomes the empty list. -/
def getPrioritiesResult (response : Json) : List Json :=
  match response with
  | .arr xs => xs
  | _ => []

/-- Post-processing of the `getProjects` transport result:
`return response as TestRailProjectsResponse`, a bare cast. -/
def getProjectsResult (response : Json) : Json := response

/-- Post-processing of the `getSuites` transport result, a bare cast. -/
def getSuitesResult (response : Json) : Json := response

/-- Post-processing of the `getSections` transport result, a bare cast. -/
def getSectionsResult (response : Json) : Json := response

/-- Post-processing of the `getCases` transport result, a bare cast. -/
def getCasesResult (response : Json) : Json := response

/-- Post-processing of the `getGroups` transport result, a bare cast. -/
def getGroupsResult (response : Json) : Json := response

/-- Inputs consulted by `loadTestRailConfig`: the three VS Code settings
(`none` when unset, or when `require('vscode')` threw outside VS Code) and
the three environment variables (`none` when unset). -/
structure ConfigSources where
  settingBaseUrl : Option String
  settingEmail : Option String
  settingApiKey : Option String
  envBaseUrl : Option String
  envEmail : Option String
  envApiKey : Option String

/-- Settings read `config.get('...') || ''`: an absent value becomes the
empty string. -/
def orEmpty : Option String → String
  | some s => s
  | none => ""

/-- The fallback chain `value || process.env.X || ''` on strings: the
empty string is falsy, an unset environment variable yields the empty
string. -/
def jsOrStr (a : String) (b : Option String) : String :=
  if a = "" then
    match b with
    | some s => s
    | none => ""
  else a

/-- Resolution of one configuration value: settings first, then the
environment, then the empty string. -/
def resolveSetting (setting envVar : Option String) : String :=
  jsOrStr (orEmpty setting) envVar

/-- Function `loadTestRailConfig`: resolves the three values and returns
`null` when any of them is still empty. -/
def loadTestRailConfig (src : ConfigSources) : Option TestRailConfig :=
  let testrailBaseUrl := resolveSetting src.settingBaseUrl src.envBaseUrl
  let testrailEmail := resolveSetting src.settingEmail src.envEmail
  let testrailApiKey := resolveSetting src.settingApiKey src.envApiKey
  if testrailBaseUrl = "" || testrailEmail = "" || testrailApiKey = "" then
    none
  else
    some ⟨testrailBaseUrl, testrailEmail, testrailApiKey⟩

/-- Function `validateTestRailConfig`: false on `null` and on any empty
field, true otherwise. -/
def validateTestRailConfig : Option TestRailConfig → Bool
  | none => false
  | some config =>
    if config.baseUrl = "" || config.email = "" || config.apiKey = "" then
      false
    else true

/-- Class `TestRailHelper`: its only instance state is the private
`config` field set by the constructor. -/
structure TestRailHelper where
  config : TestRailConfig
deriving DecidableEq

/-- One call on a `TestRailHelper` instance: every public method of the
class, with its arguments. -/
inductive Op where
  | requestNextOp (nextLink : String)
  | getProjectOp (projectId : Int)
  | getProjectsOp (isCompleted limit offset : Option Int)
  | addProjectOp (data : List (String × Json))
  | updateProjectOp (projectId : Int) (data : List (String × Json))
  | deleteProjectOp (projectId : Int)
  | getSuiteOp (suiteId : Int)
  | getSuitesOp (projectId : Int) (limit offset : Option Int)
  | addSuiteOp (projectId : Int) (data : List (String × Json))
  | updateSuiteOp (suiteId : Int) (data : List (String × Json))
  | deleteSuiteOp (suiteId : Int)
  | getSectionOp (sectionId : Int)
  | getSectionsOp (projectId : Int) (suiteId limit offset : Option Int)
  | addSectionOp (projectId : Int) (data : List (String × Json))
  | updateSectionOp (sectionId : Int) (data : List (String × Json))
  | deleteSectionOp (sectionId : Int)
  | getCaseOp (caseId : Int)
  | getCasesOp (projectId : Int) (options : Option CaseOptions)
  | addCaseOp (sectionId : Int) (data : List (String × Json))
  | updateCaseOp (caseId : Int) (data : List (String × Json))
  | deleteCaseOp (caseId : Int)
  | getGroupOp (groupId : Int)
  | getGroupsOp (limit offset : Option Int)
  | addGroupOp (data : List (String × Json))
  | updateGroupOp (groupId : Int) (data : List (String × Json))
  | deleteGroupOp (groupId : Int)
  | getUserOp (userId : Int)
  | getUserByEmailOp (email : String)
  | getUsersOp (projectId : Option Int)
  | getPrioritiesOp

/-- Execution of one method call on an instance: the request it hands to
the transport, paired with the instance state afterwards. No method of
the class assigns to `this.config`, so every branch returns the state it
received. -/
def runOp (h : TestRailHelper) : Op → HttpRequest × TestRailHelper
  | .requestNextOp nextLink => (requestNext nextLink, h)
  | .getProjectOp projectId => (getProject projectId, h)
  | .getProjectsOp isCompleted limit offset =>
    (getProjects isCompleted limit offset, h)
  | .addProjectOp data => (addProject data, h)
  | .updateProjectOp projectId data => (updateProject projectId data, h)
  | .deleteProjectOp projectId => (deleteProject projectId, h)
  | .getSuiteOp suiteId => (getSuite suiteId, h)
  | .getSuitesOp projectId limit offset =>
    (getSuites projectId limit offset, h)
  | .addSuiteOp projectId data => (addSuite projectId data, h)
  | .updateSuiteOp suiteId data => (updateSuite suiteId data, h)
  | .deleteSuiteOp suiteId => (deleteSuite suiteId, h)
  | .getSectionOp sectionId => (getSection sectionId, h)
  | .getSectionsOp projectId suiteId limit offset =>
    (getSections projectId suiteId limit offset, h)
  | .addSectionOp projectId data => (addSection projectId data, h)
  | .updateSectionOp sectionId data => (updateSection sectionId data, h)
  | .deleteSectionOp sectionId => (deleteSection sectionId, h)
  | .getCaseOp caseId => (getCase caseId, h)
  | .getCasesOp projectId options => (getCases projectId options, h)
  | .addCaseOp sectionId data => (addCase sectionId data, h)
  | .updateCaseOp caseId data => (updateCase caseId data, h)
  | .deleteCaseOp caseId => (deleteCase caseId, h)
  | .getGroupOp groupId => (getGroup groupId, h)
  | .getGroupsOp limit offset => (getGroups limit offset, h)
  | .addGroupOp data => (addGroup data, h)
  | .updateGroupOp groupId data => (updateGroup groupId data, h)
  | .deleteGroupOp groupId => (deleteGroup groupId, h)
  | .getUserOp userId => (getUser userId, h)
  | .getUserByEmailOp email => (getUserByEmail email, h)
  | .getUsersOp projectId => (getUsers projectId, h)
  | .getPrioritiesOp => (getPriorities, h)

/-- Execution of a sequence of method calls on one instance, threading the
instance state. -/
def runSeq (h : TestRailHelper) (ops : List Op) : TestRailHelper :=
  ops.foldl (fun st op => (runOp st op).2) h

/-! Helper lemmas shared by the claim theorems. -/

/-- Appending two strings concatenates their character lists. -/
theorem mk_append (a b : List Char) :
    String.mk a ++ String.mk b = String.mk (a ++ b) := rfl

/-- The wire path reproduces the endpoint byte for byte: splitting at the
first `?` and re-concatenating is the identity. -/
theorem sentPath_eq (endpoint : String) : sentPath endpoint = endpoint := by
  unfold sentPath urlPathname urlSearch
  rw [mk_append, List.takeWhile_append_dropWhile]
  rfl

/-- Character-list shape of the error message for status 401. -/
theorem toList_msg_401 (d : String) : (apiErrorMessage (some 401) d).toList
    = apiErrorHead.toList ++ ('4' :: '0' :: '1' :: ' ' :: '-' :: ' ' :: d.toList) := by
  have h : toString (401 : Nat) = "401" := rfl
  simp [apiErrorMessage, statusToString, h, String.toList, String.data_append]

/-- Character-list shape of the error message for status 403. -/
theorem toList_msg_403 (d : String) : (apiErrorMessage (some 403) d).toList
    = apiErrorHead.toList ++ ('4' :: '0' :: '3' :: ' ' :: '-' :: ' ' :: d.toList) := by
  have h : toString (403 : Nat) = "403" := rfl
  simp [apiErrorMessage, statusToString, h, String.toList, String.data_append]

/-- Character-list shape of the error message for status 404. -/
theorem toList_msg_404 (d : String) : (apiErrorMessage (some 404) d).toList
    = apiErrorHead.toList ++ ('4' :: '0' :: '4' :: ' ' :: '-' :: ' ' :: d.toList) := by
  have h : toString (404 : Nat) = "404" := rfl
  simp [apiErrorMessage, statusToString, h, String.toList, String.data_append]

/-- A 401 error message carries its status. -/
theorem extractStatus_401 (d : String) :
    extractStatus (apiErrorMessage (some 401) d) = some 401 := by
  simp only [extractStatus, toList_msg_401]
  rw [show apiErrorHead.length = apiErrorHead.toList.length from rfl]
  rw [List.take_left, List.drop_left]
  simp [List.takeWhile_cons]

/-- A 403 error message carries its status. -/
theorem extractStatus_403 (d : String) :
    extractStatus (apiErrorMessage (some 403) d) = some 403 := by
  simp only [extractStatus, toList_msg_403]
  rw [show apiErrorHead.length = apiErrorHead.toList.length from rfl]
  rw [List.take_left, List.drop_left]
  simp [List.takeWhile_cons]

/-- A 404 error message carries its status. -/
theorem extractStatus_404 (d : String) :
    extractStatus (apiErrorMessage (some 404) d) = some 404 := by
  simp only [extractStatus, toList_msg_404]
  rw [show apiErrorHead.length = apiErrorHead.toList.length from rfl]
  rw [List.take_left, List.drop_left]
  simp [List.takeWhile_cons]

/-- A 401 error message carries the raw response body. -/
theorem extractBody_401 (d : String) :
    extractBody (apiErrorMessage (some 401) d) = some d := by
  simp only [extractBody, toList_msg_401]
  rw [show apiErrorHead.length = apiErrorHead.toList.length from rfl]
  rw [List.take_left, List.drop_left]
  simp [List.dropWhile_cons]

/-- A 403 error message carries the raw response body. -/
theorem extractBody_403 (d : String) :
    extractBody (apiErrorMessage (some 403) d) = some d := by
  simp only [extractBody, toList_msg_403]
  rw [show apiErrorHead.length = apiErrorHead.toList.length from rfl]
  rw [List.take_left, List.drop_left]
  simp [List.dropWhile_cons]

/-- A 404 error message carries the raw response body. -/
theorem extractBody_404 (d : String) :
    extractBody (apiErrorMessage (some 404) d) = some d := by
  simp only [extractBody, toList_msg_404]
  rw [show apiErrorHead.length = apiErrorHead.toList.length from rfl]
  rw [List.take_left, List.drop_left]
  simp [List.dropWhile_cons]

/-- Object spread with a trailing assignment always leaves the assigned
key bound to the assigned value. -/
theorem lookupField_spreadWith (fields : List (String × Json)) (key : String)
    (v : Json) : lookupField (spreadWith fields key v) key = some v := by
  induction fields with
  | nil => simp [spreadWith, lookupField]
  | cons hd tl ih =>
    obtain ⟨k, w⟩ := hd
    by_cases hk : k = key
    · simp [spreadWith, hk, lookupField]
    · simp [spreadWith, hk, lookupField, ih]

/-- A conditional append contributes only entries bearing its own key. -/
theorem fst_of_mem_paramIfDefined (k : String) (x : Option Int)
    (p : String × String) (hp : p ∈ paramIfDefined k x) : p.1 = k := by
  cases x with
  | none => simp [paramIfDefined] at hp
  | some v =>
    simp [paramIfDefined] at hp
    simp [hp]

/-- In-range status codes pass the transport's success test. -/
theorem statusOkCheck_of_ok (s : Nat) (h1 : 200 ≤ s) (h2 : s < 300) :
    statusOkCheck (some s) = true := by
  have h0 : s ≠ 0 := by omega
  simp [statusOkCheck, h0, h1, h2]

/-! Claim theorems. -/

/-- Claim C1: `requestNext` treats the continuation link as an opa\x71ue
string: it strips exactly one leading `/` when present, prefixes the
remainder with `/index.php?/`, and issues a `GET` request whose wire path
and query (`url.pathname + url.search`) reproduce the link byte for byte,
so every embedded query parameter is preserved exactly as given. The
hypothesis restricts the link to characters the WHATWG URL serializer
keeps verbatim, which covers every link the service emits. -/
theorem claim1_requestNext_verbatim (link : String)
    (_hsafe : link.toList.all urlVerbatimChar = true) :
    (requestNext link).method = "GET"
    ∧ (requestNext link).body = none
    ∧ sentPath (requestNext link).endpoint
        = "/index.php?/"
          ++ (if link.toList.take 1 = ['/'] then String.mk (link.toList.drop 1)
            else link) := by
  refine ⟨rfl, rfl, ?_⟩
  rw [sentPath_eq]
  rfl

/-- Claim C1 witness: the continuation link recorded in the repository's
issue report is followed verbatim. -/
theorem claim1_witness :
    ("/api/v2/get_sections/16&suite_id=142&limit=250&offset=250".toList.all
      urlVerbatimChar = true)
    ∧ sentPath (requestNext
        "/api/v2/get_sections/16&suite_id=142&limit=250&offset=250").endpoint
      = "/index.php?/api/v2/get_sections/16&suite_id=142&limit=250&offset=250" := by
  refine ⟨by decide, ?_⟩
  have h := claim1_requestNext_verbatim
    "/api/v2/get_sections/16&suite_id=142&limit=250&offset=250" (by decide)
  rw [h.2.2]
  decide

/-- Claim C2 counterexample: the claim says a caller passing `offset: 0`
always produces a query string containing `offset=0`, but `getCases`
guards every append with a bare truthiness test, so `offset: 0` yields no
query parameters at all. -/
theorem claim2_cex_getCases_offset_zero :
    getCasesParams (some ⟨none, none, none, some 0⟩) = []
    ∧ (getCases 1 (some ⟨none, none, none, some 0⟩)).endpoint
        = "/index.php?/api/v2/get_cases/1" := ⟨rfl, rfl⟩

/-- Claim C2 (amended): `getProjects`, `getSuites`, `getSections` and
`getGroups` guard optional parameters with `!== undefined`, so a passed
value — including zero — is appended and an omitted one is absent; but
`getCases` and `getUsers` guard with bare truthiness, so a zero value is
omitted exactly like an undefined one and only nonzero values are
appended. -/
theorem claim2_query_params_amended (ic l o a b c : Option Int) (v : Int) :
    ("offset", toString v) ∈ getProjectsParams ic l (some v)
    ∧ (∀ p ∈ getProjectsParams ic l none, p.1 ≠ "offset")
    ∧ ("is_completed", toString v) ∈ getProjectsParams (some v) l o
    ∧ ("offset", toString v) ∈ getSuitesParams l (some v)
    ∧ (∀ p ∈ getSuitesParams l none, p.1 ≠ "offset")
    ∧ ("offset", toString v) ∈ getSectionsParams o l (some v)
    ∧ (∀ p ∈ getSectionsParams o l none, p.1 ≠ "offset")
    ∧ ("suite_id", toString v) ∈ getSectionsParams (some v) l o
    ∧ ("offset", toString v) ∈ getGroupsParams l (some v)
    ∧ (∀ p ∈ getGroupsParams l none, p.1 ≠ "offset")
    ∧ getCasesParams (some ⟨a, b, c, some 0⟩)
        = getCasesParams (some ⟨a, b, c, none⟩)
    ∧ (v ≠ 0 → ("offset", toString v) ∈ getCasesParams (some ⟨a, b, c, some v⟩))
    ∧ getUsersQuery (some 0) = ""
    ∧ getUsersQuery none = ""
    ∧ (v ≠ 0 → getUsersQuery (some v) = "&project_id=" ++ toString v) := by
  refine ⟨?_, ?_, ?_, ?_, ?_, ?_, ?_, ?_, ?_, ?_, ?_, ?_, rfl, rfl, ?_⟩
  · simp [getProjectsParams, paramIfDefined]
  · intro p hp
    rw [getProjectsParams] at hp
    rcases List.mem_append.mp hp with h | h
    · rcases List.mem_append.mp h with h2 | h2
      · rw [fst_of_mem_paramIfDefined _ _ _ h2]
        decide
      · rw [fst_of_mem_paramIfDefined _ _ _ h2]
        decide
    · simp [paramIfDefined] at h
  · simp [getProjectsParams, paramIfDefined]
  · simp [getSuitesParams, paramIfDefined]
  · intro p hp
    rw [getSuitesParams] at hp
    rcases List.mem_append.mp hp with h | h
    · rw [fst_of_mem_paramIfDefined _ _ _ h]
      decide
    · simp [paramIfDefined] at h
  · simp [getSectionsParams, paramIfDefined]
  · intro p hp
    rw [getSectionsParams] at hp
    rcases List.mem_append.mp hp with h | h
    · rcases List.mem_append.mp h with h2 | h2
      · rw [fst_of_mem_paramIfDefined _ _ _ h2]
        decide
      · rw [fst_of_mem_paramIfDefined _ _ _ h2]
        decide
    · simp [paramIfDefined] at h
  · simp [getSectionsParams, paramIfDefined]
  · simp [getGroupsParams, paramIfDefined]
  · intro p hp
    rw [getGroupsParams] at hp
    rcases List.mem_append.mp hp with h | h
    · rw [fst_of_mem_paramIfDefined _ _ _ h]
      decide
    · simp [paramIfDefined] at h
  · simp [getCasesParams, paramIfTruthy]
  · intro hv
    simp [getCasesParams, paramIfTruthy, hv]
  · intro hv
    simp [getUsersQuery, hv]

/-- Claim C2 witness: zero offsets are kept by `getProjects` and nonzero
values are kept by `getCases` and `getUsers`. -/
theorem claim2_witness :
    ("offset", toString (0 : Int)) ∈ getProjectsParams none none (some 0)
    ∧ ("offset", toString (5 : Int)) ∈
        getCasesParams (some ⟨none, none, none, some 5⟩)
    ∧ getUsersQuery (some 5) = "&project_id=" ++ toString (5 : Int) := by
  refine ⟨(claim2_query_params_amended none none none none none none 0).1, ?_, ?_⟩
  · exact (claim2_query_params_amended none none none none none none 5).2.2.2.2.2.2.2.2.2.2.2.1
      (by decide)
  · exact (claim2_query_params_amended none none none none none none 5).2.2.2.2.2.2.2.2.2.2.2.2.2.2
      (by decide)

/-- Claim C3: on any HTTP status in `[200, 300)`, an empty body resolves
to an empty object, a body `JSON.parse` accepts resolves to the parsed
value, and a non-empty body `JSON.parse` rejects resolves to the raw text
unchanged — never a failure. -/
theorem claim3_success_body_handling (parseJson : String → Option Json)
    (statusCode : Nat) (data : String)
    (h1 : 200 ≤ statusCode) (h2 : statusCode < 300) :
    (data = "" →
      onEnd parseJson (some statusCode) data = .resolved (Json.obj []))
    ∧ (∀ j, data ≠ "" → parseJson data = some j →
        onEnd parseJson (some statusCode) data = .resolved j)
    ∧ (data ≠ "" → parseJson data = none →
        onEnd parseJson (some statusCode) data = .resolved (Json.str data)) := by
  have hb := statusOkCheck_of_ok statusCode h1 h2
  refine ⟨?_, ?_, ?_⟩
  · intro hd
    simp [onEnd, hb, hd]
  · intro j hd hp
    simp [onEnd, hb, hd, hp]
  · intro hd hp
    simp [onEnd, hb, hd, hp]

/-- Claim C3 witness: the three body cases at status 200 with a parser
that accepts exactly the text `[]`. -/
theorem claim3_witness :
    onEnd (fun s => if s = "[]" then some (Json.arr []) else none)
        (some 200) "" = .resolved (Json.obj [])
    ∧ onEnd (fun s => if s = "[]" then some (Json.arr []) else none)
        (some 200) "[]" = .resolved (Json.arr [])
    ∧ onEnd (fun s => if s = "[]" then some (Json.arr []) else none)
        (some 200) "nope" = .resolved (Json.str "nope") := by
  have hp : (fun s => if s = "[]" then some (Json.arr []) else none) "[]"
      = some (Json.arr []) := rfl
  have hq : (fun s => if s = "[]" then some (Json.arr []) else none) "nope"
      = none := rfl
  refine ⟨?_, ?_, ?_⟩
  · exact (claim3_success_body_handling _ 200 "" (by omega) (by omega)).1 rfl
  · exact (claim3_success_body_handling _ 200 "[]" (by omega) (by omega)).2.1
      (Json.arr []) (by decide) hp
  · exact (claim3_success_body_handling _ 200 "nope" (by omega) (by omega)).2.2
      (by decide) hq

/-- Claim C4: any status outside `[200, 300)` (or an absent status)
rejects with an error whose message embeds the status code and the raw
body, recoverably — in particular 401, 403 and 404 and their bodies can
be read back out — and a network-level error is passed through unchanged,
carrying the underlying message and no status. -/
theorem claim4_failure_error_content (parseJson : String → Option Json)
    (statusCode : Option Nat) (data errName errMessage : String)
    (hbad : statusOkCheck statusCode = false) :
    onEnd parseJson statusCode data
        = .rejected "Error" (apiErrorMessage statusCode data)
    ∧ extractStatus (apiErrorMessage (some 401) data) = some 401
    ∧ extractStatus (apiErrorMessage (some 403) data) = some 403
    ∧ extractStatus (apiErrorMessage (some 404) data) = some 404
    ∧ extractBody (apiErrorMessage (some 401) data) = some data
    ∧ extractBody (apiErrorMessage (some 403) data) = some data
    ∧ extractBody (apiErrorMessage (some 404) data) = some data
    ∧ onError errName errMessage = .rejected errName errMessage := by
  exact ⟨by simp [onEnd, hbad], extractStatus_401 data, extractStatus_403 data,
    extractStatus_404 data, extractBody_401 data, extractBody_403 data,
    extractBody_404 data, rfl⟩

/-- Claim C4 witness: a 404 rejection carries status and body in its
message. -/
theorem claim4_witness :
    onEnd (fun _ => none) (some 404) "not found"
      = .rejected "Error" "TestRail API error: 404 - not found"
    ∧ extractStatus "TestRail API error: 404 - not found" = some 404 := by
  have h := claim4_failure_error_content (fun _ => none) (some 404)
    "not found" "" "" (by decide)
  exact ⟨h.1, h.2.2.2.1⟩

/-- Claim C5 counterexample: the claim says a 401 surfaces as an
`AuthenticationError` kind distinct from other failures and a 404 as a
`NotFound` kind, but the transport rejects every non-2xx status with the
same generic error kind: at these concrete inputs the 401 and the 404
rejection carry the identical error-class name `Error`. -/
theorem claim5_cex_same_error_kind :
    settledName (onEnd (fun _ => none) (some 401) "denied")
      = settledName (onEnd (fun _ => none) (some 404) "missing")
    ∧ settledName (onEnd (fun _ => none) (some 401) "denied") = some "Error" :=
  ⟨rfl, rfl⟩

/-- Claim C5 (amended): every non-2xx response, 401 and 404 included,
surfaces as the single generic error kind `Error`; the failure class is
identified not by the error's kind but by the HTTP status embedded in its
message, from which 401, 403 and 404 can be recovered and told apart. -/
theorem claim5_error_kind_amended (parseJson : String → Option Json)
    (data other : String) :
    onEnd parseJson (some 401) data
        = .rejected "Error" (apiErrorMessage (some 401) data)
    ∧ onEnd parseJson (some 404) data
        = .rejected "Error" (apiErrorMessage (some 404) data)
    ∧ settledName (onEnd parseJson (some 401) data)
        = settledName (onEnd parseJson (some 404) other)
    ∧ extractStatus (apiErrorMessage (some 401) data) = some 401
    ∧ extractStatus (apiErrorMessage (some 403) data) = some 403
    ∧ extractStatus (apiErrorMessage (some 404) data) = some 404
    ∧ apiErrorMessage (some 401) data ≠ apiErrorMessage (some 403) other
    ∧ apiErrorMessage (some 401) data ≠ apiErrorMessage (some 404) other
    ∧ apiErrorMessage (some 403) data ≠ apiErrorMessage (some 404) other := by
  have hne : ∀ s t : Nat, ∀ d d' : String,
      extractStatus (apiErrorMessage (some s) d) = some s →
      extractStatus (apiErrorMessage (some t) d') = some t →
      s ≠ t → apiErrorMessage (some s) d ≠ apiErrorMessage (some t) d' := by
    intro s t d d' hs ht hst heq
    rw [heq, ht] at hs
    exact hst (Option.some.inj hs).symm
  have h401 : statusOkCheck (some 401) = false := rfl
  have h404 : statusOkCheck (some 404) = false := rfl
  refine ⟨by simp [onEnd, h401], by simp [onEnd, h404], rfl, extractStatus_401 data,
    extractStatus_403 data, extractStatus_404 data, ?_, ?_, ?_⟩
  · exact hne 401 403 data other (extractStatus_401 data)
      (extractStatus_403 other) (by omega)
  · exact hne 401 404 data other (extractStatus_401 data)
      (extractStatus_404 other) (by omega)
  · exact hne 403 404 data other (extractStatus_403 data)
      (extractStatus_404 other) (by omega)

/-- Claim C5 witness: concrete 401 and 403 messages differ while their
rejections share one kind. -/
theorem claim5_witness :
    apiErrorMessage (some 401) "denied" ≠ apiErrorMessage (some 403) "denied"
    ∧ settledName (onEnd (fun _ => none) (some 401) "denied")
        = settledName (onEnd (fun _ => none) (some 404) "gone") := by
  have h := claim5_error_kind_amended (fun _ => none) "denied" "denied"
  have h2 := claim5_error_kind_amended (fun _ => none) "denied" "gone"
  exact ⟨h.2.2.2.2.2.2.1, h2.2.2.1⟩

/-- Claim C6: `getUsers` and `getPriorities` post-process every transport
value into a plain ordered sequence, never a paginated envelope: the
result is the response array itself, the response's `users` field when
that field is an array (for `getUsers`), or the empty sequence. -/
theorem claim6_nonpaginated_results (response : Json) :
    (response = Json.arr (getUsersResult response)
      ∨ jsField response "users" = some (Json.arr (getUsersResult response))
      ∨ getUsersResult response = [])
    ∧ (response = Json.arr (getPrioritiesResult response)
      ∨ getPrioritiesResult response = []) := by
  constructor
  · cases response with
    | arr xs => exact Or.inl rfl
    | obj fields =>
      cases h : jsField (Json.obj fields) "users" with
      | none =>
        refine Or.inr (Or.inr ?_)
        simp [getUsersResult, h, truthy]
      | some users =>
        cases users with
        | arr xs =>
          refine Or.inr (Or.inl ?_)
          have hr : getUsersResult (Json.obj fields) = xs := by
            simp [getUsersResult, h, truthy]
          rw [hr]
        | null => exact Or.inr (Or.inr (by simp [getUsersResult, h, truthy]))
        | bool b => exact Or.inr (Or.inr (by cases b <;> simp [getUsersResult, h, truthy]))
        | num n => exact Or.inr (Or.inr (by simp [getUsersResult, h, truthy]))
        | str s => exact Or.inr (Or.inr (by simp [getUsersResult, h, truthy]))
        | obj fs => exact Or.inr (Or.inr (by simp [getUsersResult, h, truthy]))
    | null => exact Or.inr (Or.inr rfl)
    | bool b => exact Or.inr (Or.inr (by cases b <;> simp [getUsersResult, truthy, jsField]))
    | num n => exact Or.inr (Or.inr (by simp [getUsersResult, truthy, jsField]))
    | str s => exact Or.inr (Or.inr (by simp [getUsersResult, truthy, jsField]))
  · cases response with
    | arr xs => exact Or.inl rfl
    | null => exact Or.inr rfl
    | bool b => exact Or.inr rfl
    | num n => exact Or.inr rfl
    | str s => exact Or.inr rfl
    | obj fields => exact Or.inr rfl

/-- Claim C7 counterexample: the claim says every add/update operation
sends exactly the fields the caller supplied, but `updateGroup` injects
`group_id` into the body: with the single supplied field `name`, the body
carries a second field the caller never passed. -/
theorem claim7_cex_updateGroup_body :
    (updateGroup 5 [("name", Json.str "MSX")]).body
      = some (Json.obj [("name", Json.str "MSX"), ("group_id", Json.num 5)])
    ∧ (updateGroup 5 [("name", Json.str "MSX")]).body
      ≠ some (Json.obj [("name", Json.str "MSX")]) := by
  refine ⟨rfl, ?_⟩
  intro h
  simp [updateGroup, spreadWith] at h

/-- Claim C7 (amended): every add and update operation sends the caller's
payload as the JSON body verbatim — exactly the supplied fields, no local
validation — except `updateGroup`, which sends the supplied fields with
`group_id` additionally bound to the id from the URL (overwriting a
supplied `group_id`, appending otherwise); service rejections pass
through the transport unchanged. -/
theorem claim7_request_bodies_amended (pid sid cid gid : Int)
    (data : List (String × Json)) :
    (addProject data).body = some (Json.obj data)
    ∧ (updateProject pid data).body = some (Json.obj data)
    ∧ (addSuite pid data).body = some (Json.obj data)
    ∧ (updateSuite sid data).body = some (Json.obj data)
    ∧ (addSection pid data).body = some (Json.obj data)
    ∧ (updateSection sid data).body = some (Json.obj data)
    ∧ (addCase sid data).body = some (Json.obj data)
    ∧ (updateCase cid data).body = some (Json.obj data)
    ∧ (addGroup data).body = some (Json.obj data)
    ∧ (updateGroup gid data).body
        = some (Json.obj (spreadWith data "group_id" (Json.num gid)))
    ∧ lookupField (spreadWith data "group_id" (Json.num gid)) "group_id"
        = some (Json.num gid) :=
  ⟨rfl, rfl, rfl, rfl, rfl, rfl, rfl, rfl, rfl, rfl,
    lookupField_spreadWith data "group_id" (Json.num gid)⟩

/-- Claim C8: construction is prevented up front when any credential is
missing: `loadTestRailConfig` returns `null` exactly when at least one of
the three values is empty after consulting settings and environment, and
`validateTestRailConfig` returns `true` exactly when the config is
non-null with all three fields non-empty. -/
theorem claim8_config_fail_fast (src : ConfigSources)
    (c : Option TestRailConfig) :
    (loadTestRailConfig src = none
      ↔ (resolveSetting src.settingBaseUrl src.envBaseUrl = ""
        ∨ resolveSetting src.settingEmail src.envEmail = ""
        ∨ resolveSetting src.settingApiKey src.envApiKey = ""))
    ∧ (validateTestRailConfig c = true
      ↔ ∃ cfg, c = some cfg
        ∧ cfg.baseUrl ≠ "" ∧ cfg.email ≠ "" ∧ cfg.apiKey ≠ "") := by
  constructor
  · simp only [loadTestRailConfig]
    split <;> rename_i hcond
    · simp_all
      tauto
    · simp_all
  · cases c with
    | none => simp [validateTestRailConfig]
    | some cfg =>
      unfold validateTestRailConfig
      split <;> rename_i hcond
      · simp_all
      · simp_all
        tauto

/-- Claim C8 witness: an all-empty source loads to `null`; a fully
populated config validates. -/
theorem claim8_witness :
    loadTestRailConfig ⟨none, none, none, none, none, none⟩ = none
    ∧ validateTestRailConfig
        (some ⟨"https://x.example", "u@example.com", "key"⟩) = true := by
  constructor
  · exact (claim8_config_fail_fast ⟨none, none, none, none, none, none⟩
      none).1.mpr (Or.inl rfl)
  · exact (claim8_config_fail_fast ⟨none, none, none, none, none, none⟩
      (some ⟨"https://x.example", "u@example.com", "key"⟩)).2.mpr
      ⟨⟨"https://x.example", "u@example.com", "key"⟩, rfl,
        by decide, by decide, by decide⟩

/-- Claim C9: the credentials held by a `TestRailHelper` instance are
exactly the ones supplied at construction, for every operation and every
sequence of operations: no method writes to the stored config. -/
theorem claim9_config_immutable (cfg : TestRailConfig) (h : TestRailHelper)
    (op : Op) (ops : List Op) :
    (runOp h op).2 = h ∧ (runSeq ⟨cfg⟩ ops).config = cfg := by
  have hstep : ∀ st : TestRailHelper, ∀ o : Op, (runOp st o).2 = st := by
    intro st o
    cases o <;> rfl
  have hseq : ∀ l : List Op, ∀ st : TestRailHelper, runSeq st l = st := by
    intro l
    induction l with
    | nil => intro st; rfl
    | cons o rest ih =>
      intro st
      show runSeq (runOp st o).2 rest = st
      rw [hstep st o]
      exact ih st
  exact ⟨hstep h op, by rw [hseq ops ⟨cfg⟩]⟩

/-- Claim C10: the envelope-returning listings hand back whatever JSON the
transport produced, unchanged — a cast with no field validation, no
normalization and no defaulting — so a bare array or an object missing
`offset`, `limit`, `size` or `_links` reaches the caller exactly as the
service sent it. -/
theorem claim10_envelope_cast (response : Json) (xs : List Json) :
    getProjectsResult response = response
    ∧ getSuitesResult response = response
    ∧ getSectionsResult response = response
    ∧ getCasesResult response = response
    ∧ getGroupsResult response = response
    ∧ getProjectsResult (Json.arr xs) = Json.arr xs
    ∧ jsField (getProjectsResult (Json.arr xs)) "offset" = none
    ∧ jsField (getGroupsResult (Json.arr xs)) "_links" = none :=
  ⟨rfl, rfl, rfl, rfl, rfl, rfl, rfl, rfl⟩

end TestRailTools
